import Mathlib

/-!
# Verification of the konstytucja procedural core

Shallow embedding of the voting/quorum arithmetic engine
(`src/konstytucja/common/voting.py`) and the three procedural state
machines (`legislative_process.py`, `chapter_06_council_of_ministers.py`,
`chapter_12_amendments.py`), together with proofs of the specified
properties.

Python exceptions are modelled with `Except`/`Option` values: a method
that mutates the instance and may raise is embedded as a function
`State → State × Option KError`, returning the state as left behind by
the call together with the raised error, if any.
-/

namespace Konstytucja

/-- The two legislative chambers (from `common/types.py`, absent from the
source tree; the enumeration is fixed by its uses in the present files). -/
inductive Chamber where
  | SEJM
  | SENATE
deriving DecidableEq

/-- Modelled from the spec: `ProcessRecord`/`VoteRecord` (§3 data model;
`common/types.py` is absent from the source tree). An immutable vote
tally: chamber, votes for / against / abstain, and the statutory member
count of the chamber, accessed as `members` in `voting.py`. -/
structure VoteRecord where
  chamber : Chamber
  votes_for : Nat
  votes_against : Nat
  votes_abstain : Nat
  members : Nat
deriving DecidableEq

/-- Modelled from the spec: derived field `total-present = for + against
+ abstain` (§3 data model). -/
def VoteRecord.total_present (v : VoteRecord) : Nat :=
  v.votes_for + v.votes_against + v.votes_abstain

/-- The four majority kinds (`common/types.py`, fixed by use). -/
inductive MajorityType where
  | SIMPLE
  | ABSOLUTE
  | TWO_THIRDS
  | THREE_FIFTHS
deriving DecidableEq

/-- The error taxonomy of `common/errors.py` (absent from the source
tree): each exception class carries a message and an article reference.
`assertionFailed` stands for Python's `AssertionError` raised by a failed
`assert` statement in a machine method. -/
inductive KError where
  | quorum (msg : String) (article : String)
  | majority (msg : String) (article : String)
  | legislative (msg : String) (article : String)
  | formation (msg : String) (article : String)
  | amendment (msg : String) (article : String)
  | assertionFailed
deriving DecidableEq

/-- `check_quorum` (voting.py): raises `QuorumError` when
`total_present * 2 < members`, otherwise returns `None`. -/
def check_quorum (vote : VoteRecord) : Except KError Unit :=
  if vote.total_present * 2 < vote.members then
    .error (.quorum
      ("Quorum not met: " ++ toString vote.total_present ++ " present, " ++
       "need at least " ++ toString ((vote.members + 1) / 2) ++ " " ++
       "of " ++ toString vote.members ++ " statutory members")
      "120")
  else
    .ok ()

/-- `check_majority` (voting.py): matches on the majority type, raises
`MajorityError` when the kind-specific integer inequality fails, and
returns `True` otherwise. -/
def check_majority (vote : VoteRecord) (majority_type : MajorityType) :
    Except KError Bool :=
  match majority_type with
  | .SIMPLE =>
      if vote.votes_for > vote.votes_against then .ok true
      else .error (.majority
        ("Simple majority not reached: " ++ toString vote.votes_for ++ " for, " ++
         toString vote.votes_against ++ " against")
        "120")
  | .ABSOLUTE =>
      if vote.votes_for * 2 > vote.members then .ok true
      else .error (.majority
        ("Absolute majority not reached: " ++ toString vote.votes_for ++ " for, " ++
         "need more than " ++ toString (vote.members / 2) ++ " " ++
         "of " ++ toString vote.members ++ " statutory members")
        "120")
  | .TWO_THIRDS =>
      if vote.votes_for * 3 ≥ vote.total_present * 2 then .ok true
      else .error (.majority
        ("Two-thirds majority not reached: " ++ toString vote.votes_for ++ " for " ++
         "of " ++ toString vote.total_present ++ " present")
        "235")
  | .THREE_FIFTHS =>
      if vote.votes_for * 5 ≥ vote.total_present * 3 then .ok true
      else .error (.majority
        ("Three-fifths majority not reached: " ++ toString vote.votes_for ++ " for " ++
         "of " ++ toString vote.total_present ++ " present")
        "120")

/-- `passes_vote` (voting.py): quorum first (when `require_quorum`),
then the majority check. -/
def passes_vote (vote : VoteRecord) (majority_type : MajorityType)
    (require_quorum : Bool) : Except KError Bool :=
  if require_quorum then
    match check_quorum vote with
    | .error e => .error e
    | .ok _ => check_majority vote majority_type
  else
    check_majority vote majority_type

/-- Bill stages (`common/types.py` enumeration, fixed by its uses in
`legislative_process.py`). -/
inductive BillStage where
  | INITIATED
  | SEJM_DELIBERATION
  | SEJM_PASSED
  | SENATE_DELIBERATION
  | SENATE_PASSED
  | SENATE_AMENDED
  | SENATE_REJECTED
  | SEJM_OVERRIDE_VOTE
  | PRESIDENT_REVIEW
  | SIGNED
  | VETOED
  | REFERRED_TO_TRIBUNAL
  | PARTIALLY_UNCONSTITUTIONAL
  | VETO_OVERRIDDEN
  | REJECTED
  | ENACTED
deriving DecidableEq

/-- Python's `Enum.name` for `BillStage`. -/
def BillStage.name : BillStage → String
  | .INITIATED => "INITIATED"
  | .SEJM_DELIBERATION => "SEJM_DELIBERATION"
  | .SEJM_PASSED => "SEJM_PASSED"
  | .SENATE_DELIBERATION => "SENATE_DELIBERATION"
  | .SENATE_PASSED => "SENATE_PASSED"
  | .SENATE_AMENDED => "SENATE_AMENDED"
  | .SENATE_REJECTED => "SENATE_REJECTED"
  | .SEJM_OVERRIDE_VOTE => "SEJM_OVERRIDE_VOTE"
  | .PRESIDENT_REVIEW => "PRESIDENT_REVIEW"
  | .SIGNED => "SIGNED"
  | .VETOED => "VETOED"
  | .REFERRED_TO_TRIBUNAL => "REFERRED_TO_TRIBUNAL"
  | .PARTIALLY_UNCONSTITUTIONAL => "PARTIALLY_UNCONSTITUTIONAL"
  | .VETO_OVERRIDDEN => "VETO_OVERRIDDEN"
  | .REJECTED => "REJECTED"
  | .ENACTED => "ENACTED"

/-- The mutable state of a `LegislativeProcess` instance: its stage and
its history log. The `bill` metadata field never influences any
transition and is not modelled. -/
structure LegState where
  stage : BillStage
  history : List String
deriving DecidableEq

/-- `LegislativeProcess._transition`: append one history entry and move
to the new stage. -/
def legTransition (s : LegState) (new_stage : BillStage) (note : String) :
    LegState :=
  { stage := new_stage
    history := s.history ++ [s.stage.name ++ " -> " ++ new_stage.name ++ ": " ++ note] }

/-- The message built by `LegislativeProcess._require_stage`. -/
def legRequireMsg (actual : BillStage) (expected : List BillStage) : String :=
  "Cannot proceed: bill is at " ++ actual.name ++ ", " ++
  "expected " ++ String.intercalate ", " (expected.map BillStage.name)

/-- `LegislativeProcess._require_stage` wrapped around a method body:
when the stage is not among the expected ones the error is raised and
the body never runs (the state is returned unchanged). -/
def legRequire (expected : List BillStage) (article : String) (s : LegState)
    (body : LegState × Option KError) : LegState × Option KError :=
  if s.stage ∈ expected then body
  else (s, some (.legislative (legRequireMsg s.stage expected) article))

/-- The transition methods of `LegislativeProcess`, one constructor per
method; vote-consuming methods carry their `VoteRecord`. -/
inductive LegOp where
  | begin_sejm_deliberation
  | sejm_vote (v : VoteRecord)
  | send_to_senate
  | senate_accepts
  | senate_amends (v : VoteRecord)
  | senate_rejects (v : VoteRecord)
  | sejm_override_senate (v : VoteRecord)
  | send_to_president
  | president_signs
  | president_vetoes
  | president_refers_to_tribunal
  | tribunal_rules_constitutional
  | tribunal_rules_unconstitutional
  | tribunal_rules_partially_unconstitutional
  | president_signs_with_exclusions
  | president_returns_to_sejm
  | sejm_override_veto (v : VoteRecord)
  | enact

/-- One method call on a `LegislativeProcess` instance, embedding each
method of `legislative_process.py` body by body. -/
def legApply (op : LegOp) (s : LegState) : LegState × Option KError :=
  match op with
  | .begin_sejm_deliberation =>
      legRequire [.INITIATED] "119" s
        (legTransition s .SEJM_DELIBERATION "Three readings begin", none)
  | .sejm_vote v =>
      legRequire [.SEJM_DELIBERATION] "120" s
        (if v.chamber = Chamber.SEJM then
          match passes_vote v .SIMPLE true with
          | .error e => (legTransition s .REJECTED "Sejm rejected", some e)
          | .ok _ =>
              (legTransition s .SEJM_PASSED
                ("Passed " ++ toString v.votes_for ++ "-" ++ toString v.votes_against),
               none)
        else (s, some .assertionFailed))
  | .send_to_senate =>
      legRequire [.SEJM_PASSED] "121(1)" s
        (legTransition s .SENATE_DELIBERATION "Sent to Senate", none)
  | .senate_accepts =>
      legRequire [.SENATE_DELIBERATION] "121(2)" s
        (legTransition s .SENATE_PASSED "Senate accepted without changes", none)
  | .senate_amends v =>
      legRequire [.SENATE_DELIBERATION] "121(2)" s
        (if v.chamber = Chamber.SENATE then
          match passes_vote v .SIMPLE true with
          | .error e => (s, some e)
          | .ok _ =>
              (legTransition s .SENATE_AMENDED "Senate proposed amendments", none)
        else (s, some .assertionFailed))
  | .senate_rejects v =>
      legRequire [.SENATE_DELIBERATION] "121(2)" s
        (if v.chamber = Chamber.SENATE then
          match passes_vote v .SIMPLE true with
          | .error e => (s, some e)
          | .ok _ => (legTransition s .SENATE_REJECTED "Senate rejected", none)
        else (s, some .assertionFailed))
  | .sejm_override_senate v =>
      legRequire [.SENATE_AMENDED, .SENATE_REJECTED] "121(3)" s
        (if v.chamber = Chamber.SEJM then
          match passes_vote v .ABSOLUTE true with
          | .error e =>
              (legTransition s .REJECTED "Sejm failed to override Senate", some e)
          | .ok _ =>
              (legTransition s .SEJM_OVERRIDE_VOTE "Sejm overrode Senate", none)
        else (s, some .assertionFailed))
  | .send_to_president =>
      legRequire [.SENATE_PASSED, .SEJM_OVERRIDE_VOTE] "122" s
        (legTransition s .PRESIDENT_REVIEW "Sent to President", none)
  | .president_signs =>
      legRequire [.PRESIDENT_REVIEW] "122(2)" s
        (legTransition s .SIGNED "President signed", none)
  | .president_vetoes =>
      legRequire [.PRESIDENT_REVIEW] "122(5)" s
        (legTransition s .VETOED "President vetoed", none)
  | .president_refers_to_tribunal =>
      legRequire [.PRESIDENT_REVIEW] "122(3)" s
        (legTransition s .REFERRED_TO_TRIBUNAL "Referred to Tribunal", none)
  | .tribunal_rules_constitutional =>
      legRequire [.REFERRED_TO_TRIBUNAL] "122(4)" s
        (legTransition s .PRESIDENT_REVIEW
          "Tribunal: constitutional — returns to President", none)
  | .tribunal_rules_unconstitutional =>
      legRequire [.REFERRED_TO_TRIBUNAL] "122(4)" s
        (legTransition s .REJECTED
          "Tribunal: unconstitutional — President refuses signature", none)
  | .tribunal_rules_partially_unconstitutional =>
      legRequire [.REFERRED_TO_TRIBUNAL] "122(4)" s
        (legTransition s .PARTIALLY_UNCONSTITUTIONAL
          "Tribunal: partially unconstitutional — President decides", none)
  | .president_signs_with_exclusions =>
      legRequire [.PARTIALLY_UNCONSTITUTIONAL] "122(4)" s
        (legTransition s .SIGNED
          "President signed with exclusion of unconstitutional provisions", none)
  | .president_returns_to_sejm =>
      legRequire [.PARTIALLY_UNCONSTITUTIONAL] "122(4)" s
        (legTransition s .SEJM_DELIBERATION
          "Returned to Sejm for removal of unconstitutionality", none)
  | .sejm_override_veto v =>
      legRequire [.VETOED] "122(5)" s
        (if v.chamber = Chamber.SEJM then
          match passes_vote v .THREE_FIFTHS true with
          | .error e => (legTransition s .REJECTED "Veto override failed", some e)
          | .ok _ =>
              (legTransition s .VETO_OVERRIDDEN "Veto overridden by 3/5 Sejm", none)
        else (s, some .assertionFailed))
  | .enact =>
      legRequire [.SIGNED, .VETO_OVERRIDDEN] "122" s
        (legTransition s .ENACTED "Published in Dziennik Ustaw", none)

/-- The source stages each `LegislativeProcess` method passes to
`_require_stage` (read off each method of `legislative_process.py`). -/
def legExpected : LegOp → List BillStage
  | .begin_sejm_deliberation => [.INITIATED]
  | .sejm_vote _ => [.SEJM_DELIBERATION]
  | .send_to_senate => [.SEJM_PASSED]
  | .senate_accepts => [.SENATE_DELIBERATION]
  | .senate_amends _ => [.SENATE_DELIBERATION]
  | .senate_rejects _ => [.SENATE_DELIBERATION]
  | .sejm_override_senate _ => [.SENATE_AMENDED, .SENATE_REJECTED]
  | .send_to_president => [.SENATE_PASSED, .SEJM_OVERRIDE_VOTE]
  | .president_signs => [.PRESIDENT_REVIEW]
  | .president_vetoes => [.PRESIDENT_REVIEW]
  | .president_refers_to_tribunal => [.PRESIDENT_REVIEW]
  | .tribunal_rules_constitutional => [.REFERRED_TO_TRIBUNAL]
  | .tribunal_rules_unconstitutional => [.REFERRED_TO_TRIBUNAL]
  | .tribunal_rules_partially_unconstitutional => [.REFERRED_TO_TRIBUNAL]
  | .president_signs_with_exclusions => [.PARTIALLY_UNCONSTITUTIONAL]
  | .president_returns_to_sejm => [.PARTIALLY_UNCONSTITUTIONAL]
  | .sejm_override_veto _ => [.VETOED]
  | .enact => [.SIGNED, .VETO_OVERRIDDEN]

/-- The article each `LegislativeProcess` method reports on an illegal
transition. -/
def legArticle : LegOp → String
  | .begin_sejm_deliberation => "119"
  | .sejm_vote _ => "120"
  | .send_to_senate => "121(1)"
  | .senate_accepts => "121(2)"
  | .senate_amends _ => "121(2)"
  | .senate_rejects _ => "121(2)"
  | .sejm_override_senate _ => "121(3)"
  | .send_to_president => "122"
  | .president_signs => "122(2)"
  | .president_vetoes => "122(5)"
  | .president_refers_to_tribunal => "122(3)"
  | .tribunal_rules_constitutional => "122(4)"
  | .tribunal_rules_unconstitutional => "122(4)"
  | .tribunal_rules_partially_unconstitutional => "122(4)"
  | .president_signs_with_exclusions => "122(4)"
  | .president_returns_to_sejm => "122(4)"
  | .sejm_override_veto _ => "122(5)"
  | .enact => "122"

/-- Run a sequence of method calls, threading the state and collecting
the raised error (if any) of each call, in order. -/
def legRunAll : List LegOp → LegState → LegState × List (Option KError)
  | [], s => (s, [])
  | op :: rest, s =>
      let r := legApply op s
      let rr := legRunAll rest r.1
      (rr.1, r.2 :: rr.2)

/-- Government-formation stages (`common/types.py`, fixed by use in
`chapter_06_council_of_ministers.py`). -/
inductive GovernmentFormationStage where
  | PRESIDENT_DESIGNATES
  | CONFIDENCE_VOTE
  | SEJM_ELECTS
  | PRESIDENT_APPOINTS_RETRY
  | APPOINTED
  | FAILED
deriving DecidableEq

/-- Python's `Enum.name` for `GovernmentFormationStage`. -/
def GovernmentFormationStage.name : GovernmentFormationStage → String
  | .PRESIDENT_DESIGNATES => "PRESIDENT_DESIGNATES"
  | .CONFIDENCE_VOTE => "CONFIDENCE_VOTE"
  | .SEJM_ELECTS => "SEJM_ELECTS"
  | .PRESIDENT_APPOINTS_RETRY => "PRESIDENT_APPOINTS_RETRY"
  | .APPOINTED => "APPOINTED"
  | .FAILED => "FAILED"

/-- The state of a `GovernmentFormation` instance. Its only field in the
source dataclass is `stage`. -/
structure GovState where
  stage : GovernmentFormationStage
deriving DecidableEq

/-- The message built by `GovernmentFormation._require_stage` (note the
trailing period, unlike the legislative machine's message). -/
def govRequireMsg (actual : GovernmentFormationStage)
    (expected : List GovernmentFormationStage) : String :=
  "Cannot proceed: formation is at " ++ actual.name ++ ", " ++
  "expected " ++ String.intercalate ", " (expected.map GovernmentFormationStage.name) ++ "."

/-- `GovernmentFormation._require_stage` wrapped around a method body. -/
def govRequire (expected : List GovernmentFormationStage) (article : String)
    (g : GovState) (body : GovState × Option KError) : GovState × Option KError :=
  if g.stage ∈ expected then body
  else (g, some (.formation (govRequireMsg g.stage expected) article))

/-- The transition methods of `GovernmentFormation`. -/
inductive GovOp where
  | president_designates
  | sejm_confidence_first_attempt (v : VoteRecord)
  | sejm_elects_pm (v : VoteRecord)
  | president_appoints_third_attempt (v : VoteRecord)

/-- One method call on a `GovernmentFormation` instance. The three
confidence-vote methods wrap `passes_vote` in `try/except Exception`:
a failed vote is absorbed into a stage change and no error escapes. -/
def govApply (op : GovOp) (g : GovState) : GovState × Option KError :=
  match op with
  | .president_designates =>
      govRequire [.PRESIDENT_DESIGNATES] "154(1)" g
        (⟨.CONFIDENCE_VOTE⟩, none)
  | .sejm_confidence_first_attempt v =>
      govRequire [.CONFIDENCE_VOTE] "154(2)" g
        (match passes_vote v .ABSOLUTE true with
         | .ok _ => (⟨.APPOINTED⟩, none)
         | .error _ => (⟨.SEJM_ELECTS⟩, none))
  | .sejm_elects_pm v =>
      govRequire [.SEJM_ELECTS] "155(1)" g
        (match passes_vote v .ABSOLUTE true with
         | .ok _ => (⟨.APPOINTED⟩, none)
         | .error _ => (⟨.PRESIDENT_APPOINTS_RETRY⟩, none))
  | .president_appoints_third_attempt v =>
      govRequire [.PRESIDENT_APPOINTS_RETRY] "155(2)" g
        (match passes_vote v .SIMPLE true with
         | .ok _ => (⟨.APPOINTED⟩, none)
         | .error _ => (⟨.FAILED⟩, none))

/-- The source stages each `GovernmentFormation` method passes to
`_require_stage`. -/
def govExpected : GovOp → List GovernmentFormationStage
  | .president_designates => [.PRESIDENT_DESIGNATES]
  | .sejm_confidence_first_attempt _ => [.CONFIDENCE_VOTE]
  | .sejm_elects_pm _ => [.SEJM_ELECTS]
  | .president_appoints_third_attempt _ => [.PRESIDENT_APPOINTS_RETRY]

/-- The article each `GovernmentFormation` method reports on an illegal
transition. -/
def govArticle : GovOp → String
  | .president_designates => "154(1)"
  | .sejm_confidence_first_attempt _ => "154(2)"
  | .sejm_elects_pm _ => "155(1)"
  | .president_appoints_third_attempt _ => "155(2)"

/-- Run a sequence of `GovernmentFormation` method calls, collecting the
raised error (if any) of each call, in order. -/
def govRunAll : List GovOp → GovState → GovState × List (Option KError)
  | [], g => (g, [])
  | op :: rest, g =>
      let r := govApply op g
      let rr := govRunAll rest r.1
      (rr.1, r.2 :: rr.2)

/-- Amendment stages (`common/types.py`, fixed by use in
`chapter_12_amendments.py`). -/
inductive AmendmentStage where
  | INITIATED
  | FIRST_READING_SEJM
  | SEJM_PASSED
  | SENATE_PASSED
  | REFERENDUM_REQUESTED
  | REFERENDUM_PASSED
  | PRESIDENT_SIGNS
  | ADOPTED
  | REJECTED
deriving DecidableEq

/-- Python's `Enum.name` for `AmendmentStage`. -/
def AmendmentStage.name : AmendmentStage → String
  | .INITIATED => "INITIATED"
  | .FIRST_READING_SEJM => "FIRST_READING_SEJM"
  | .SEJM_PASSED => "SEJM_PASSED"
  | .SENATE_PASSED => "SENATE_PASSED"
  | .REFERENDUM_REQUESTED => "REFERENDUM_REQUESTED"
  | .REFERENDUM_PASSED => "REFERENDUM_PASSED"
  | .PRESIDENT_SIGNS => "PRESIDENT_SIGNS"
  | .ADOPTED => "ADOPTED"
  | .REJECTED => "REJECTED"

/-- `REFERENDUM_CHAPTERS` of `chapter_12_amendments.py`: Chapters I, II
and XII. -/
def REFERENDUM_CHAPTERS : List Nat := [1, 2, 12]

/-- The state of an `AmendmentProcess` instance: title, initiator,
declared affected chapters (the Python `set[int]`, carried as a list of
its elements), stage, and the referendum flag. -/
structure AmendState where
  title : String
  initiator : String
  affected_chapters : List Nat
  stage : AmendmentStage
  referendum_requested : Bool
deriving DecidableEq

/-- `AmendmentProcess.touches_protected_chapters`: whether the declared
affected-chapter set intersects `REFERENDUM_CHAPTERS`. -/
def touches_protected_chapters (a : AmendState) : Bool :=
  a.affected_chapters.any (fun c => c ∈ REFERENDUM_CHAPTERS)

/-- The transition methods of `AmendmentProcess`. -/
inductive AmendOp where
  | first_reading
  | sejm_vote (v : VoteRecord)
  | senate_vote (v : VoteRecord)
  | request_referendum
  | referendum_result (approved : Bool)
  | president_sign
  | complete

/-- One method call on an `AmendmentProcess` instance, embedding each
method of `chapter_12_amendments.py` body by body (each method performs
its own stage check with its own message). -/
def amendApply (op : AmendOp) (a : AmendState) : AmendState × Option KError :=
  match op with
  | .first_reading =>
      if a.stage ≠ .INITIATED then
        (a, some (.amendment
          ("Cannot start first reading from stage " ++ a.stage.name) "235(3)"))
      else ({ a with stage := .FIRST_READING_SEJM }, none)
  | .sejm_vote v =>
      if a.stage ≠ .FIRST_READING_SEJM then
        (a, some (.amendment
          ("Cannot hold Sejm vote from stage " ++ a.stage.name) "235(4)"))
      else if v.chamber = Chamber.SEJM then
        match passes_vote v .TWO_THIRDS true with
        | .error e => ({ a with stage := .REJECTED }, some e)
        | .ok _ => ({ a with stage := .SEJM_PASSED }, none)
      else (a, some .assertionFailed)
  | .senate_vote v =>
      if a.stage ≠ .SEJM_PASSED then
        (a, some (.amendment
          ("Cannot hold Senate vote from stage " ++ a.stage.name) "235(4)"))
      else if v.chamber = Chamber.SENATE then
        match passes_vote v .ABSOLUTE true with
        | .error e => ({ a with stage := .REJECTED }, some e)
        | .ok _ => ({ a with stage := .SENATE_PASSED }, none)
      else (a, some .assertionFailed)
  | .request_referendum =>
      if a.stage ≠ .SENATE_PASSED then
        (a, some (.amendment
          ("Cannot request referendum from stage " ++ a.stage.name) "235(6)"))
      else if ¬ touches_protected_chapters a then
        (a, some (.amendment
          "Referendum only available for amendments to Chapters I, II, or XII"
          "235(6)"))
      else
        ({ a with referendum_requested := true, stage := .REFERENDUM_REQUESTED },
         none)
  | .referendum_result approved =>
      if a.stage ≠ .REFERENDUM_REQUESTED then
        (a, some (.amendment
          ("Cannot record referendum result from stage " ++ a.stage.name) "235(6)"))
      else if approved then ({ a with stage := .REFERENDUM_PASSED }, none)
      else ({ a with stage := .REJECTED }, none)
  | .president_sign =>
      if a.stage ≠ .SENATE_PASSED ∧ a.stage ≠ .REFERENDUM_PASSED then
        (a, some (.amendment
          ("Cannot sign from stage " ++ a.stage.name) "235(7)"))
      else ({ a with stage := .PRESIDENT_SIGNS }, none)
  | .complete =>
      if a.stage ≠ .PRESIDENT_SIGNS then
        (a, some (.amendment
          ("Cannot complete from stage " ++ a.stage.name) "235"))
      else ({ a with stage := .ADOPTED }, none)

/-- The permitted source stages of each `AmendmentProcess` method. -/
def amendExpected : AmendOp → List AmendmentStage
  | .first_reading => [.INITIATED]
  | .sejm_vote _ => [.FIRST_READING_SEJM]
  | .senate_vote _ => [.SEJM_PASSED]
  | .request_referendum => [.SENATE_PASSED]
  | .referendum_result _ => [.REFERENDUM_REQUESTED]
  | .president_sign => [.SENATE_PASSED, .REFERENDUM_PASSED]
  | .complete => [.PRESIDENT_SIGNS]

/-- The message each `AmendmentProcess` method formats for a stage
precondition violation (it names the actual stage only). -/
def amendRequireMsg (op : AmendOp) (actual : AmendmentStage) : String :=
  match op with
  | .first_reading => "Cannot start first reading from stage " ++ actual.name
  | .sejm_vote _ => "Cannot hold Sejm vote from stage " ++ actual.name
  | .senate_vote _ => "Cannot hold Senate vote from stage " ++ actual.name
  | .request_referendum => "Cannot request referendum from stage " ++ actual.name
  | .referendum_result _ => "Cannot record referendum result from stage " ++ actual.name
  | .president_sign => "Cannot sign from stage " ++ actual.name
  | .complete => "Cannot complete from stage " ++ actual.name

/-- The article each `AmendmentProcess` method reports on a stage
precondition violation. -/
def amendArticle : AmendOp → String
  | .first_reading => "235(3)"
  | .sejm_vote _ => "235(4)"
  | .senate_vote _ => "235(4)"
  | .request_referendum => "235(6)"
  | .referendum_result _ => "235(6)"
  | .president_sign => "235(7)"
  | .complete => "235"

/-- Run a sequence of `AmendmentProcess` method calls, collecting the
raised error (if any) of each call, in order. -/
def amendRunAll : List AmendOp → AmendState → AmendState × List (Option KError)
  | [], a => (a, [])
  | op :: rest, a =>
      let r := amendApply op a
      let rr := amendRunAll rest r.1
      (rr.1, r.2 :: rr.2)

/-- Whether `pat` occurs as a contiguous prefix of `s` (on `Char`
lists). -/
def charsHaveLead : List Char → List Char → Bool
  | [], _ => true
  | _ :: _, [] => false
  | a :: as, b :: bs => a = b && charsHaveLead as bs

/-- Whether `pat` occurs contiguously anywhere in `s` (on `Char`
lists). -/
def charsContain (pat : List Char) : List Char → Bool
  | [] => charsHaveLead pat []
  | b :: bs => charsHaveLead pat (b :: bs) || charsContain pat bs

/-- Whether the string `pat` occurs contiguously in the string `s`. -/
def strContains (s pat : String) : Bool :=
  charsContain pat.data s.data

/-! ## Helper lemmas -/

instance {ε α : Type} [DecidableEq ε] [DecidableEq α] : DecidableEq (Except ε α) :=
  fun a b =>
    match a, b with
    | .error e, .error f => decidable_of_iff (e = f) (by simp)
    | .error _, .ok _ => isFalse (by simp)
    | .ok _, .error _ => isFalse (by simp)
    | .ok x, .ok y => decidable_of_iff (x = y) (by simp)

theorem isOk_ok {ε α : Type} (a : α) : (Except.ok a : Except ε α).isOk = true := rfl

theorem isOk_error {ε α : Type} (e : ε) :
    (Except.error e : Except ε α).isOk = false := rfl

theorem okIte_isOk {c : Prop} [Decidable c] {e : KError} :
    (if c then (Except.ok true : Except KError Bool) else .error e).isOk = true ↔ c := by
  split <;> simp_all [isOk_ok, isOk_error]

theorem okIte_isOk_false {c : Prop} [Decidable c] {e : KError} :
    (if c then (Except.ok true : Except KError Bool) else .error e).isOk = false ↔
      ¬ c := by
  split <;> simp_all [isOk_ok, isOk_error]

/-! ## Theorems -/

/-- C1: for every vote record, `check_majority` succeeds iff the
kind-specific integer inequality holds — SIMPLE: `votes_for >
votes_against` (abstentions excluded), ABSOLUTE: `votes_for * 2 >
members` (statutory member count), TWO_THIRDS: `votes_for * 3 ≥
total_present * 2`, THREE_FIFTHS: `votes_for * 5 ≥ total_present * 3` —
and raises `MajorityError` otherwise; the spec's abstention example
(100 for, 99 against, 231 abstain) passes SIMPLE. -/
theorem check_majority_succeeds_iff (v : VoteRecord) :
    ((check_majority v .SIMPLE).isOk = true ↔ v.votes_for > v.votes_against)
    ∧ ((check_majority v .ABSOLUTE).isOk = true ↔ v.votes_for * 2 > v.members)
    ∧ ((check_majority v .TWO_THIRDS).isOk = true ↔
        v.votes_for * 3 ≥ v.total_present * 2)
    ∧ ((check_majority v .THREE_FIFTHS).isOk = true ↔
        v.votes_for * 5 ≥ v.total_present * 3)
    ∧ (∀ k : MajorityType, (check_majority v k).isOk = false →
        ∃ msg art, check_majority v k = .error (KError.majority msg art))
    ∧ (check_majority ⟨.SEJM, 100, 99, 231, 460⟩ .SIMPLE).isOk = true := by
  refine ⟨?_, ?_, ?_, ?_, ?_, by decide⟩
  · simp only [check_majority]; exact okIte_isOk
  · simp only [check_majority]; exact okIte_isOk
  · simp only [check_majority]; exact okIte_isOk
  · simp only [check_majority]; exact okIte_isOk
  · intro k h
    cases k <;> simp only [check_majority] at h ⊢ <;>
      rw [okIte_isOk_false] at h <;> rw [if_neg h] <;> exact ⟨_, _, rfl⟩

/-- Witness for `check_majority_succeeds_iff`: the SIMPLE boundary
example passes, and a tied SIMPLE vote yields a `MajorityError`. -/
theorem check_majority_succeeds_iff_witness :
    (check_majority ⟨.SEJM, 100, 99, 231, 460⟩ .SIMPLE).isOk = true
    ∧ ∃ msg art, check_majority ⟨.SEJM, 200, 200, 30, 460⟩ .SIMPLE =
        .error (KError.majority msg art) :=
  ⟨(check_majority_succeeds_iff ⟨.SEJM, 100, 99, 231, 460⟩).1.mpr (by decide),
   (check_majority_succeeds_iff ⟨.SEJM, 200, 200, 30, 460⟩).2.2.2.2.1 .SIMPLE
     (by decide)⟩

/-- C2: for every vote record, `check_quorum` succeeds iff
`total_present * 2 ≥ members` and raises `QuorumError` (article 120)
otherwise; with a 460-member chamber, 230 present passes and 229
fails. -/
theorem check_quorum_succeeds_iff (v : VoteRecord) :
    ((check_quorum v).isOk = true ↔ v.total_present * 2 ≥ v.members)
    ∧ ((check_quorum v).isOk = false →
        ∃ msg, check_quorum v = .error (KError.quorum msg "120"))
    ∧ (check_quorum ⟨.SEJM, 200, 30, 0, 460⟩).isOk = true
    ∧ (check_quorum ⟨.SEJM, 200, 29, 0, 460⟩).isOk = false := by
  refine ⟨?_, ?_, by decide, by decide⟩
  · simp only [check_quorum]
    split <;> simp_all [isOk_ok, isOk_error, Nat.not_lt]
  · intro h
    by_cases hc : v.total_present * 2 < v.members
    · simp only [check_quorum]; rw [if_pos hc]; exact ⟨_, rfl⟩
    · exfalso
      simp only [check_quorum] at h
      rw [if_neg hc] at h
      simp [isOk_ok] at h

/-- Witness for `check_quorum_succeeds_iff`: 230 of 460 passes and 229
of 460 raises a `QuorumError`. -/
theorem check_quorum_succeeds_iff_witness :
    (check_quorum ⟨.SEJM, 200, 30, 0, 460⟩).isOk = true
    ∧ ∃ msg, check_quorum ⟨.SEJM, 200, 29, 0, 460⟩ =
        .error (KError.quorum msg "120") :=
  ⟨(check_quorum_succeeds_iff ⟨.SEJM, 200, 30, 0, 460⟩).1.mpr (by decide),
   (check_quorum_succeeds_iff ⟨.SEJM, 200, 29, 0, 460⟩).2.1 (by decide)⟩

/-- C7: `passes_vote` runs the quorum check first (when required) and
the majority check second, short-circuiting on the first failure: a
quorum failure propagates as-is (the majority check is never consulted,
even if it would also fail); with `require_quorum = false`, or once
quorum passes, the result is exactly that of `check_majority`. -/
theorem passes_vote_order (v : VoteRecord) (k : MajorityType) :
    (∀ e, check_quorum v = .error e → passes_vote v k true = .error e)
    ∧ passes_vote v k false = check_majority v k
    ∧ (check_quorum v = .ok () → passes_vote v k true = check_majority v k) := by
  refine ⟨?_, rfl, ?_⟩
  · intro e he
    simp only [passes_vote]
    rw [if_pos trivial, he]
  · intro h
    simp only [passes_vote]
    rw [if_pos trivial, h]

/-- Witness for `passes_vote_order`: a record failing both quorum and
majority yields the `QuorumError` (10 for, 20 against of a 460-member
chamber), the quorum-free call reduces to the majority check, and a
quorum-passing record reduces to the majority check. -/
theorem passes_vote_order_witness :
    passes_vote ⟨.SEJM, 10, 20, 0, 460⟩ .SIMPLE true =
      .error (KError.quorum
        "Quorum not met: 30 present, need at least 230 of 460 statutory members"
        "120")
    ∧ passes_vote ⟨.SEJM, 10, 20, 0, 460⟩ .SIMPLE false =
        check_majority ⟨.SEJM, 10, 20, 0, 460⟩ .SIMPLE
    ∧ passes_vote ⟨.SEJM, 300, 100, 0, 460⟩ .SIMPLE true =
        check_majority ⟨.SEJM, 300, 100, 0, 460⟩ .SIMPLE :=
  ⟨(passes_vote_order ⟨.SEJM, 10, 20, 0, 460⟩ .SIMPLE).1 _ (by decide),
   (passes_vote_order ⟨.SEJM, 10, 20, 0, 460⟩ .SIMPLE).2.1,
   (passes_vote_order ⟨.SEJM, 300, 100, 0, 460⟩ .SIMPLE).2.2 (by decide)⟩

/-- C10: `check_majority` and `passes_vote` never return `False`: any
normal return is `True`, so the boolean carries no information beyond
the absence of a raised error. -/
theorem vote_checks_never_return_false (v : VoteRecord) (k : MajorityType)
    (rq : Bool) :
    ((check_majority v k).isOk = true → check_majority v k = .ok true)
    ∧ ((passes_vote v k rq).isOk = true → passes_vote v k rq = .ok true) := by
  have hm : (check_majority v k).isOk = true → check_majority v k = .ok true := by
    intro h
    cases k <;> simp only [check_majority] at h ⊢ <;>
      rw [okIte_isOk] at h <;> rw [if_pos h]
  refine ⟨hm, ?_⟩
  intro h
  cases rq
  · simp only [passes_vote] at h ⊢
    rw [if_neg (by simp)] at h ⊢
    exact hm h
  · simp only [passes_vote] at h ⊢
    rw [if_pos trivial] at h ⊢
    cases hq : check_quorum v
    · rw [hq] at h
      simp [isOk_error] at h
    · rw [hq] at h
      exact hm h

/-- Witness for `vote_checks_never_return_false`: a passing SIMPLE vote
returns exactly `.ok true` from both functions. -/
theorem vote_checks_never_return_false_witness :
    check_majority ⟨.SEJM, 300, 100, 0, 460⟩ .SIMPLE = .ok true
    ∧ passes_vote ⟨.SEJM, 300, 100, 0, 460⟩ .SIMPLE true = .ok true :=
  ⟨(vote_checks_never_return_false ⟨.SEJM, 300, 100, 0, 460⟩ .SIMPLE true).1
     (by decide),
   (vote_checks_never_return_false ⟨.SEJM, 300, 100, 0, 460⟩ .SIMPLE true).2
     (by decide)⟩

/-- The happy-path call sequence of the legislative process: first
chamber passes 250-180, Senate accepts unchanged, President signs. -/
def happySevenOps : List LegOp :=
  [.begin_sejm_deliberation,
   .sejm_vote ⟨.SEJM, 250, 180, 0, 460⟩,
   .send_to_senate,
   .senate_accepts,
   .send_to_president,
   .president_signs,
   .enact]

/-- C9: driving a legislative process along the happy path — begin
deliberation, a 250-180 passing Sejm vote, send to Senate, Senate
accepts unchanged, send to President, President signs, enact — reaches
ENACTED with exactly 7 history entries and no error at any step. -/
theorem legislative_happy_path_seven_entries :
    (legRunAll happySevenOps ⟨.INITIATED, []⟩).1.stage = .ENACTED
    ∧ (legRunAll happySevenOps ⟨.INITIATED, []⟩).1.history.length = 7
    ∧ (legRunAll happySevenOps ⟨.INITIATED, []⟩).2 = List.replicate 7 none := by
  refine ⟨by decide, by decide, by decide⟩

/-- C4: the government-formation machine follows the fixed three-attempt
sequence — attempts 1 and 2 require ABSOLUTE majority, attempt 3 SIMPLE;
a passing vote moves to APPOINTED and a failing vote moves to
SEJM_ELECTS / PRESIDENT_APPOINTS_RETRY / FAILED respectively, with no
error raised for any failed confidence vote; three consecutive failing
200-for votes against a 460-member body traverse PRESIDENT_DESIGNATES →
CONFIDENCE_VOTE → SEJM_ELECTS → PRESIDENT_APPOINTS_RETRY → FAILED. -/
theorem government_formation_three_attempts (v : VoteRecord) :
    govApply .president_designates ⟨.PRESIDENT_DESIGNATES⟩ =
      (⟨.CONFIDENCE_VOTE⟩, none)
    ∧ govApply (.sejm_confidence_first_attempt v) ⟨.CONFIDENCE_VOTE⟩ =
        (⟨if (passes_vote v .ABSOLUTE true).isOk then .APPOINTED else .SEJM_ELECTS⟩,
         none)
    ∧ govApply (.sejm_elects_pm v) ⟨.SEJM_ELECTS⟩ =
        (⟨if (passes_vote v .ABSOLUTE true).isOk then .APPOINTED
          else .PRESIDENT_APPOINTS_RETRY⟩, none)
    ∧ govApply (.president_appoints_third_attempt v) ⟨.PRESIDENT_APPOINTS_RETRY⟩ =
        (⟨if (passes_vote v .SIMPLE true).isOk then .APPOINTED else .FAILED⟩, none)
    ∧ govRunAll [.president_designates,
        .sejm_confidence_first_attempt ⟨.SEJM, 200, 260, 0, 460⟩,
        .sejm_elects_pm ⟨.SEJM, 200, 260, 0, 460⟩,
        .president_appoints_third_attempt ⟨.SEJM, 200, 260, 0, 460⟩]
        ⟨.PRESIDENT_DESIGNATES⟩ = (⟨.FAILED⟩, [none, none, none, none])
    ∧ (govRunAll [.president_designates] ⟨.PRESIDENT_DESIGNATES⟩).1.stage =
        .CONFIDENCE_VOTE
    ∧ (govRunAll [.president_designates,
        .sejm_confidence_first_attempt ⟨.SEJM, 200, 260, 0, 460⟩]
        ⟨.PRESIDENT_DESIGNATES⟩).1.stage = .SEJM_ELECTS
    ∧ (govRunAll [.president_designates,
        .sejm_confidence_first_attempt ⟨.SEJM, 200, 260, 0, 460⟩,
        .sejm_elects_pm ⟨.SEJM, 200, 260, 0, 460⟩]
        ⟨.PRESIDENT_DESIGNATES⟩).1.stage = .PRESIDENT_APPOINTS_RETRY := by
  refine ⟨by decide, ?_, ?_, ?_, by decide, by decide, by decide, by decide⟩
  · simp only [govApply, govRequire]
    rw [if_pos (by decide)]
    cases hp : passes_vote v .ABSOLUTE true <;> simp [isOk_ok, isOk_error]
  · simp only [govApply, govRequire]
    rw [if_pos (by decide)]
    cases hp : passes_vote v .ABSOLUTE true <;> simp [isOk_ok, isOk_error]
  · simp only [govApply, govRequire]
    rw [if_pos (by decide)]
    cases hp : passes_vote v .SIMPLE true <;> simp [isOk_ok, isOk_error]

/-- C3 fails on the code: a Senate amendment vote that fails its check
(here a quorum failure: 30 of 100 senators present) re-raises the error
but leaves the machine at SENATE_DELIBERATION — it does not move the
stage to REJECTED, and it appends no history entry. -/
theorem senate_amends_failure_not_rejected :
    legApply (.senate_amends ⟨.SENATE, 10, 20, 0, 100⟩)
        ⟨.SENATE_DELIBERATION, []⟩ =
      (⟨.SENATE_DELIBERATION, []⟩,
       some (.quorum
         "Quorum not met: 30 present, need at least 50 of 100 statutory members"
         "120"))
    ∧ ((⟨.SENATE_DELIBERATION, []⟩ : LegState).stage == BillStage.REJECTED) =
        false := by
  refine ⟨by decide, by decide⟩

/-- C3 amended: the three Sejm-side vote transitions (`sejm_vote`,
`sejm_override_senate`, `sejm_override_veto`) move the stage to REJECTED
and re-raise the underlying QuorumError/MajorityError when their check
fails, while the Senate amendment and Senate rejection votes re-raise
the underlying error but leave the stage (and history) unchanged at
SENATE_DELIBERATION. -/
theorem vote_failure_rejection_paths (s : LegState) (v : VoteRecord) (e : KError) :
    (v.chamber = .SEJM → s.stage = .SEJM_DELIBERATION →
      passes_vote v .SIMPLE true = .error e →
      legApply (.sejm_vote v) s =
        (legTransition s .REJECTED "Sejm rejected", some e))
    ∧ (v.chamber = .SEJM →
        (s.stage = .SENATE_AMENDED ∨ s.stage = .SENATE_REJECTED) →
        passes_vote v .ABSOLUTE true = .error e →
        legApply (.sejm_override_senate v) s =
          (legTransition s .REJECTED "Sejm failed to override Senate", some e))
    ∧ (v.chamber = .SEJM → s.stage = .VETOED →
        passes_vote v .THREE_FIFTHS true = .error e →
        legApply (.sejm_override_veto v) s =
          (legTransition s .REJECTED "Veto override failed", some e))
    ∧ (v.chamber = .SENATE → s.stage = .SENATE_DELIBERATION →
        passes_vote v .SIMPLE true = .error e →
        legApply (.senate_amends v) s = (s, some e))
    ∧ (v.chamber = .SENATE → s.stage = .SENATE_DELIBERATION →
        passes_vote v .SIMPLE true = .error e →
        legApply (.senate_rejects v) s = (s, some e)) := by
  refine ⟨?_, ?_, ?_, ?_, ?_⟩ <;> intro hc hs hp <;>
    simp only [legApply, legRequire] <;>
    rw [if_pos (by simp [hs]), if_pos hc, hp]

/-- Witness for `vote_failure_rejection_paths`: a quorum-failing Sejm
vote moves the bill to REJECTED re-raising the QuorumError, and the same
tally offered as a Senate amendment vote from SENATE_DELIBERATION leaves
the state untouched while re-raising. -/
theorem vote_failure_rejection_paths_witness :
    legApply (.sejm_vote ⟨.SEJM, 10, 20, 0, 460⟩) ⟨.SEJM_DELIBERATION, []⟩ =
      (legTransition ⟨.SEJM_DELIBERATION, []⟩ .REJECTED "Sejm rejected",
       some (.quorum
         "Quorum not met: 30 present, need at least 230 of 460 statutory members"
         "120"))
    ∧ legApply (.senate_amends ⟨.SENATE, 10, 20, 0, 100⟩)
        ⟨.SENATE_DELIBERATION, []⟩ =
      (⟨.SENATE_DELIBERATION, []⟩,
       some (.quorum
         "Quorum not met: 30 present, need at least 50 of 100 statutory members"
         "120")) :=
  ⟨(vote_failure_rejection_paths ⟨.SEJM_DELIBERATION, []⟩ ⟨.SEJM, 10, 20, 0, 460⟩
      _).1 rfl rfl (by decide),
   (vote_failure_rejection_paths ⟨.SENATE_DELIBERATION, []⟩ ⟨.SENATE, 10, 20, 0, 100⟩
      _).2.2.2.1 rfl rfl (by decide)⟩

/-- C8: `request_referendum` succeeds (moving SENATE_PASSED to
REFERENDUM_REQUESTED and setting the flag) iff the machine is at
SENATE_PASSED and the affected-chapter set intersects the protected set
{1, 2, 12}; a non-intersecting amendment raises even after both chambers
have passed it, while an intersecting one reaches ADOPTED via either the
referendum path or direct presidential signature. -/
theorem request_referendum_protected_iff (a : AmendState) :
    ((amendApply .request_referendum a).2 = none ↔
      a.stage = .SENATE_PASSED ∧ touches_protected_chapters a = true)
    ∧ (a.stage = .SENATE_PASSED → touches_protected_chapters a = true →
        amendApply .request_referendum a =
          ({ a with stage := .REFERENDUM_REQUESTED, referendum_requested := true },
           none))
    ∧ amendRunAll [.first_reading, .sejm_vote ⟨.SEJM, 350, 60, 0, 460⟩,
        .senate_vote ⟨.SENATE, 60, 30, 0, 100⟩, .request_referendum]
        ⟨"Poprawka", "Senate", [3], .INITIATED, false⟩ =
      (⟨"Poprawka", "Senate", [3], .SENATE_PASSED, false⟩,
       [none, none, none,
        some (.amendment
          "Referendum only available for amendments to Chapters I, II, or XII"
          "235(6)")])
    ∧ (amendRunAll [.first_reading, .sejm_vote ⟨.SEJM, 350, 60, 0, 460⟩,
        .senate_vote ⟨.SENATE, 60, 30, 0, 100⟩, .request_referendum,
        .referendum_result true, .president_sign, .complete]
        ⟨"Poprawka", "Senate", [1], .INITIATED, false⟩).1.stage = .ADOPTED
    ∧ (amendRunAll [.first_reading, .sejm_vote ⟨.SEJM, 350, 60, 0, 460⟩,
        .senate_vote ⟨.SENATE, 60, 30, 0, 100⟩, .request_referendum,
        .referendum_result true, .president_sign, .complete]
        ⟨"Poprawka", "Senate", [1], .INITIATED, false⟩).2 = List.replicate 7 none
    ∧ (amendRunAll [.first_reading, .sejm_vote ⟨.SEJM, 350, 60, 0, 460⟩,
        .senate_vote ⟨.SENATE, 60, 30, 0, 100⟩, .president_sign, .complete]
        ⟨"Poprawka", "Senate", [1], .INITIATED, false⟩).1.stage = .ADOPTED
    ∧ (amendRunAll [.first_reading, .sejm_vote ⟨.SEJM, 350, 60, 0, 460⟩,
        .senate_vote ⟨.SENATE, 60, 30, 0, 100⟩, .president_sign, .complete]
        ⟨"Poprawka", "Senate", [1], .INITIATED, false⟩).2 =
        List.replicate 5 none := by
  refine ⟨?_, ?_, by decide, by decide, by decide, by decide, by decide⟩
  · by_cases hs : a.stage = .SENATE_PASSED
    · by_cases ht : touches_protected_chapters a = true
      · simp only [amendApply]
        rw [if_neg (by simp [hs]), if_neg (by simp [ht])]
        simp [hs, ht]
      · simp only [amendApply]
        rw [if_neg (by simp [hs]), if_pos (by simp [ht])]
        simp [hs, ht]
    · simp only [amendApply]
      rw [if_pos hs]
      simp [hs]
  · intro hs ht
    simp only [amendApply]
    rw [if_neg (by simp [hs]), if_neg (by simp [ht])]

/-- Witness for `request_referendum_protected_iff`: a chapter-I amendment
at SENATE_PASSED succeeds in requesting the referendum. -/
theorem request_referendum_protected_iff_witness :
    amendApply .request_referendum ⟨"Poprawka", "Senate", [1], .SENATE_PASSED, false⟩ =
      (⟨"Poprawka", "Senate", [1], .REFERENDUM_REQUESTED, true⟩, none) :=
  (request_referendum_protected_iff
    ⟨"Poprawka", "Senate", [1], .SENATE_PASSED, false⟩).2.1 rfl (by decide)

/-- C5 fails on the code: the government-formation machine records no
history — a 2-call run and a 4-call run that both end in APPOINTED leave
byte-for-byte identical machine states, so no per-transition log is
grown (the dataclass holds only `stage`). -/
theorem government_formation_keeps_no_history :
    (govRunAll [.president_designates,
        .sejm_confidence_first_attempt ⟨.SEJM, 300, 100, 0, 460⟩]
        ⟨.PRESIDENT_DESIGNATES⟩).1
      = (govRunAll [.president_designates,
          .sejm_confidence_first_attempt ⟨.SEJM, 200, 260, 0, 460⟩,
          .sejm_elects_pm ⟨.SEJM, 200, 260, 0, 460⟩,
          .president_appoints_third_attempt ⟨.SEJM, 300, 100, 0, 460⟩]
          ⟨.PRESIDENT_DESIGNATES⟩).1
    ∧ (govRunAll [.president_designates,
        .sejm_confidence_first_attempt ⟨.SEJM, 300, 100, 0, 460⟩]
        ⟨.PRESIDENT_DESIGNATES⟩).1.stage = .APPOINTED := by
  refine ⟨by decide, by decide⟩

/-- C5 amended: only the legislative machine keeps a history log — an
append-only list of "from -> to: note" strings, never reordered or
pruned, growing by exactly one entry on every error-free call; the
government-formation machine's state is exactly its stage (it carries no
history log). -/
theorem legislative_history_append_only (op : LegOp) (s : LegState)
    (p q : GovState) :
    (∃ t, (legApply op s).1.history = s.history ++ t
      ∧ ((legApply op s).2 = none → t.length = 1))
    ∧ (p.stage = q.stage → p = q) := by
  constructor
  · have key : ∀ (exp : List BillStage) (art : String)
        (body : LegState × Option KError),
        (∃ t, body.1.history = s.history ++ t ∧ (body.2 = none → t.length = 1)) →
        ∃ t, (legRequire exp art s body).1.history = s.history ++ t
          ∧ ((legRequire exp art s body).2 = none → t.length = 1) := by
      intro exp art body hb
      unfold legRequire
      split
      · exact hb
      · exact ⟨[], by simp, by simp⟩
    cases op with
    | sejm_vote v =>
        refine key _ _ _ ?_
        by_cases hc : v.chamber = Chamber.SEJM
        · rw [if_pos hc]
          cases hp : passes_vote v .SIMPLE true
          · exact ⟨_, rfl, by simp⟩
          · exact ⟨_, rfl, by simp⟩
        · rw [if_neg hc]
          exact ⟨[], by simp, by simp⟩
    | senate_amends v =>
        refine key _ _ _ ?_
        by_cases hc : v.chamber = Chamber.SENATE
        · rw [if_pos hc]
          cases hp : passes_vote v .SIMPLE true
          · exact ⟨[], by simp, by simp⟩
          · exact ⟨_, rfl, by simp⟩
        · rw [if_neg hc]
          exact ⟨[], by simp, by simp⟩
    | senate_rejects v =>
        refine key _ _ _ ?_
        by_cases hc : v.chamber = Chamber.SENATE
        · rw [if_pos hc]
          cases hp : passes_vote v .SIMPLE true
          · exact ⟨[], by simp, by simp⟩
          · exact ⟨_, rfl, by simp⟩
        · rw [if_neg hc]
          exact ⟨[], by simp, by simp⟩
    | sejm_override_senate v =>
        refine key _ _ _ ?_
        by_cases hc : v.chamber = Chamber.SEJM
        · rw [if_pos hc]
          cases hp : passes_vote v .ABSOLUTE true
          · exact ⟨_, rfl, by simp⟩
          · exact ⟨_, rfl, by simp⟩
        · rw [if_neg hc]
          exact ⟨[], by simp, by simp⟩
    | sejm_override_veto v =>
        refine key _ _ _ ?_
        by_cases hc : v.chamber = Chamber.SEJM
        · rw [if_pos hc]
          cases hp : passes_vote v .THREE_FIFTHS true
          · exact ⟨_, rfl, by simp⟩
          · exact ⟨_, rfl, by simp⟩
        · rw [if_neg hc]
          exact ⟨[], by simp, by simp⟩
    | begin_sejm_deliberation => exact key _ _ _ ⟨_, rfl, by simp⟩
    | send_to_senate => exact key _ _ _ ⟨_, rfl, by simp⟩
    | senate_accepts => exact key _ _ _ ⟨_, rfl, by simp⟩
    | send_to_president => exact key _ _ _ ⟨_, rfl, by simp⟩
    | president_signs => exact key _ _ _ ⟨_, rfl, by simp⟩
    | president_vetoes => exact key _ _ _ ⟨_, rfl, by simp⟩
    | president_refers_to_tribunal => exact key _ _ _ ⟨_, rfl, by simp⟩
    | tribunal_rules_constitutional => exact key _ _ _ ⟨_, rfl, by simp⟩
    | tribunal_rules_unconstitutional => exact key _ _ _ ⟨_, rfl, by simp⟩
    | tribunal_rules_partially_unconstitutional =>
        exact key _ _ _ ⟨_, rfl, by simp⟩
    | president_signs_with_exclusions => exact key _ _ _ ⟨_, rfl, by simp⟩
    | president_returns_to_sejm => exact key _ _ _ ⟨_, rfl, by simp⟩
    | enact => exact key _ _ _ ⟨_, rfl, by simp⟩
  · intro h
    cases p
    cases q
    exact congrArg GovState.mk h

/-- Witness for `legislative_history_append_only`: the first transition
appends exactly one entry, and two stage-equal formation states are
equal. -/
theorem legislative_history_append_only_witness :
    (∃ t, (legApply .begin_sejm_deliberation ⟨.INITIATED, []⟩).1.history =
        ([] : List String) ++ t
      ∧ ((legApply .begin_sejm_deliberation ⟨.INITIATED, []⟩).2 = none →
          t.length = 1))
    ∧ (⟨.APPOINTED⟩ : GovState) = ⟨.APPOINTED⟩ :=
  ⟨(legislative_history_append_only .begin_sejm_deliberation ⟨.INITIATED, []⟩
      ⟨.APPOINTED⟩ ⟨.APPOINTED⟩).1,
   (legislative_history_append_only .begin_sejm_deliberation ⟨.INITIATED, []⟩
      ⟨.APPOINTED⟩ ⟨.APPOINTED⟩).2 rfl⟩

/-- C6 fails on the code: the amendment machine's illegal-transition
error names only the actual stage, not the set of expected stages —
calling `president_sign` from INITIATED raises "Cannot sign from stage
INITIATED", which mentions neither SENATE_PASSED nor REFERENDUM_PASSED
(the stage is still left unchanged). -/
theorem amendment_error_omits_expected_stages :
    amendApply .president_sign ⟨"Poprawka", "Senate", [3], .INITIATED, false⟩ =
      (⟨"Poprawka", "Senate", [3], .INITIATED, false⟩,
       some (.amendment "Cannot sign from stage INITIATED" "235(7)"))
    ∧ strContains "Cannot sign from stage INITIATED" "SENATE_PASSED" = false
    ∧ strContains "Cannot sign from stage INITIATED" "REFERENDUM_PASSED" = false
    ∧ strContains "Cannot sign from stage INITIATED" "INITIATED" = true := by
  refine ⟨by decide, by decide, by decide, by decide⟩

/-- C6 amended: invoking any transition operation of any of the three
machines outside its permitted source stages raises that machine's
process error and leaves the state unchanged; the legislative and
government-formation errors carry a message naming the actual stage and
the set of expected stages, while the amendment machine's message names
only the actual stage; in particular `president_signs` before
`send_to_president` raises the illegal-transition error and leaves the
stage unchanged. -/
theorem illegal_transition_leaves_state_unchanged :
    (∀ (op : LegOp) (s : LegState), s.stage ∉ legExpected op →
      legApply op s =
        (s, some (.legislative (legRequireMsg s.stage (legExpected op))
          (legArticle op))))
    ∧ (∀ (op : GovOp) (g : GovState), g.stage ∉ govExpected op →
        govApply op g =
          (g, some (.formation (govRequireMsg g.stage (govExpected op))
            (govArticle op))))
    ∧ (∀ (op : AmendOp) (a : AmendState), a.stage ∉ amendExpected op →
        amendApply op a =
          (a, some (.amendment (amendRequireMsg op a.stage) (amendArticle op))))
    ∧ (∀ s : LegState, s.stage ≠ .PRESIDENT_REVIEW →
        legApply .president_signs s =
          (s, some (.legislative (legRequireMsg s.stage [.PRESIDENT_REVIEW])
            "122(2)"))) := by
  refine ⟨?_, ?_, ?_, ?_⟩
  · intro op s h
    cases op <;> simp only [legExpected] at h <;>
      simp only [legApply, legRequire, legExpected, legArticle] <;>
      rw [if_neg h]
  · intro op g h
    cases op <;> simp only [govExpected] at h <;>
      simp only [govApply, govRequire, govExpected, govArticle] <;>
      rw [if_neg h]
  · intro op a h
    cases op <;>
      simp only [amendExpected, List.mem_singleton, List.mem_cons,
        List.not_mem_nil, or_false, not_or] at h <;>
      simp only [amendApply, amendRequireMsg, amendArticle] <;>
      rw [if_pos h]
  · intro s h
    simp only [legApply, legRequire]
    rw [if_neg (by simp [h])]

/-- Witness for `illegal_transition_leaves_state_unchanged`: calling
`president_signs` straight from INITIATED, a confidence vote from
APPOINTED, and `complete` from INITIATED all raise and leave the state
untouched. -/
theorem illegal_transition_leaves_state_unchanged_witness :
    legApply .president_signs ⟨.INITIATED, []⟩ =
      (⟨.INITIATED, []⟩,
       some (.legislative (legRequireMsg .INITIATED [.PRESIDENT_REVIEW]) "122(2)"))
    ∧ govApply (.sejm_confidence_first_attempt ⟨.SEJM, 300, 100, 0, 460⟩)
        ⟨.APPOINTED⟩ =
      (⟨.APPOINTED⟩,
       some (.formation (govRequireMsg .APPOINTED [.CONFIDENCE_VOTE]) "154(2)"))
    ∧ amendApply .complete ⟨"Poprawka", "Senate", [1], .INITIATED, false⟩ =
      (⟨"Poprawka", "Senate", [1], .INITIATED, false⟩,
       some (.amendment (amendRequireMsg .complete .INITIATED) "235")) :=
  ⟨illegal_transition_leaves_state_unchanged.2.2.2 ⟨.INITIATED, []⟩ (by decide),
   illegal_transition_leaves_state_unchanged.2.1
     (.sejm_confidence_first_attempt ⟨.SEJM, 300, 100, 0, 460⟩) ⟨.APPOINTED⟩
     (by decide),
   illegal_transition_leaves_state_unchanged.2.2.1 .complete
     ⟨"Poprawka", "Senate", [1], .INITIATED, false⟩ (by decide)⟩

end Konstytucja
